import Mathlib

/-!
Shallow embedding of the bulk-emails-verifier core
(`src/modules/domain_lookup.py`, `src/modules/smtp_checker.py`,
`src/main.py`).

Network effects (DNS MX queries, socket address resolution, SMTP
connections) are modelled as explicit oracle values describing what the
network / runtime did on each call; the embedded functions are pure
functions of the input strings and those oracles.  Where a claim speaks
about which network calls happen (or in which order hosts are probed),
the embedded function additionally returns the trace of calls it made —
this second component is ghost instrumentation, the first component is
the value the Python function returns.
-/

set_option linter.unusedVariables false

namespace BulkEmails

/-! Python string primitives

`str.strip()`, `str.lower()` and `str.rstrip(".")` as used by the
sources, modelled on `List Char`.  `Char.isWhitespace` covers the
whitespace characters relevant here (space, tab, CR, LF). -/

/-- Model of Python `str.strip()` on the character list: drop whitespace
from the front, then from the back. -/
def stripList (l : List Char) : List Char :=
  List.rdropWhile (fun c => c.isWhitespace) (l.dropWhile (fun c => c.isWhitespace))

/-- Model of Python `str.strip()`. -/
def pyStrip (s : String) : String := String.mk (stripList s.data)

/-- Model of Python `str.lower()` (ASCII letters; the domains handled by
the program are ASCII host names). -/
def pyLower (s : String) : String := String.mk (s.data.map Char.toLower)

/-- Model of the Python idiom `domain.strip().lower()` used by both
`lookup_domain` and `check_smtp_server`. -/
def pyNormalize (s : String) : String := pyLower (pyStrip s)

/-- Model of Python `str.rstrip(".")`: remove every trailing dot. -/
def rstripDots (s : String) : String :=
  String.mk (List.rdropWhile (fun c => c = '.') s.data)

/-! Character-level lemmas -/

theorem char_toNat_ofNat {n : Nat} (h : n.isValidChar) :
    (Char.ofNat n).toNat = n := by
  rw [Char.ofNat, dif_pos h]
  rfl

theorem toLower_idem (c : Char) :
    Char.toLower (Char.toLower c) = Char.toLower c := by
  simp only [Char.toLower]
  by_cases h : c.toNat ≥ 65 ∧ c.toNat ≤ 90
  · rw [if_pos h]
    have hv : (c.toNat + 32).isValidChar := Or.inl (by omega)
    have ht : (Char.ofNat (c.toNat + 32)).toNat = c.toNat + 32 := char_toNat_ofNat hv
    rw [if_neg (by omega)]
  · rw [if_neg h, if_neg h]

theorem char_eq_iff_toNat {a b : Char} : a = b ↔ a.toNat = b.toNat := by
  constructor
  · intro h; rw [h]
  · intro h
    exact Char.ext (UInt32.toNat.inj h)

theorem isWhitespace_iff (c : Char) :
    c.isWhitespace = true ↔
      c.toNat = 32 ∨ c.toNat = 9 ∨ c.toNat = 13 ∨ c.toNat = 10 := by
  simp only [Char.isWhitespace, Bool.or_eq_true, decide_eq_true_eq]
  constructor
  · rintro (((h | h) | h) | h) <;>
      simp [char_eq_iff_toNat.mp h]
  · rintro (h | h | h | h)
    · exact Or.inl (Or.inl (Or.inl (char_eq_iff_toNat.mpr h)))
    · exact Or.inl (Or.inl (Or.inr (char_eq_iff_toNat.mpr h)))
    · exact Or.inl (Or.inr (char_eq_iff_toNat.mpr h))
    · exact Or.inr (char_eq_iff_toNat.mpr h)

theorem toLower_isWhitespace (c : Char) :
    (Char.toLower c).isWhitespace = c.isWhitespace := by
  simp only [Char.toLower]
  by_cases h : c.toNat ≥ 65 ∧ c.toNat ≤ 90
  · rw [if_pos h]
    have hv : (c.toNat + 32).isValidChar := Or.inl (by omega)
    have ht : (Char.ofNat (c.toNat + 32)).toNat = c.toNat + 32 := char_toNat_ofNat hv
    have h1 : (Char.ofNat (c.toNat + 32)).isWhitespace = false := by
      by_contra hw
      have := (isWhitespace_iff _).mp (by simpa using hw)
      omega
    have h2 : c.isWhitespace = false := by
      by_contra hw
      have := (isWhitespace_iff _).mp (by simpa using hw)
      omega
    rw [h1, h2]
  · rw [if_neg h]

/-! Strip / lower lemmas -/

theorem dropWhile_eq_self_of_head? {α : Type} {p : α → Bool} {l : List α}
    (h : ∀ c, l.head? = some c → p c = false) : l.dropWhile p = l := by
  cases l with
  | nil => rfl
  | cons a t => exact List.dropWhile_cons_of_neg (by simp [h a rfl])

theorem getLast?_dropWhile_nonempty {α : Type} (p : α → Bool) (x : List α)
    (h : x.dropWhile p ≠ []) : (x.dropWhile p).getLast? = x.getLast? := by
  induction x with
  | nil => simp [List.dropWhile] at h
  | cons a t ih =>
    by_cases hpa : p a = true
    · rw [List.dropWhile_cons_of_pos hpa] at h ⊢
      have ht : t ≠ [] := by
        intro he; rw [he] at h; simp [List.dropWhile] at h
      rw [ih h]
      cases t with
      | nil => exact absurd rfl ht
      | cons b u => simp
    · rw [List.dropWhile_cons_of_neg hpa]

theorem head?_stripList (l : List Char) {c : Char}
    (h : (stripList l).head? = some c) : c.isWhitespace = false := by
  unfold stripList List.rdropWhile at h
  rw [List.head?_reverse] at h
  have hz : (List.dropWhile (fun c => c.isWhitespace)
      (l.dropWhile (fun c => c.isWhitespace)).reverse) ≠ [] := by
    intro he; rw [he] at h; simp at h
  rw [getLast?_dropWhile_nonempty _ _ hz, List.getLast?_reverse] at h
  have := List.head?_dropWhile_not (fun c => c.isWhitespace) l
  rw [h] at this
  exact this

theorem getLast?_stripList (l : List Char) {c : Char}
    (h : (stripList l).getLast? = some c) : c.isWhitespace = false := by
  unfold stripList List.rdropWhile at h
  rw [List.getLast?_reverse] at h
  have := List.head?_dropWhile_not (fun c => c.isWhitespace)
    (l.dropWhile (fun c => c.isWhitespace)).reverse
  rw [h] at this
  exact this

theorem stripList_idem (l : List Char) : stripList (stripList l) = stripList l := by
  have h1 : (stripList l).dropWhile (fun c => c.isWhitespace) = stripList l :=
    dropWhile_eq_self_of_head? (fun c hc => head?_stripList l hc)
  show List.rdropWhile _ ((stripList l).dropWhile (fun c => c.isWhitespace)) = stripList l
  rw [h1]
  exact List.rdropWhile_idempotent (fun c => c.isWhitespace) (l.dropWhile _)

theorem stripList_map_toLower (l : List Char) :
    stripList (l.map Char.toLower) = (stripList l).map Char.toLower := by
  have hws : ((fun c => Char.isWhitespace c) ∘ Char.toLower)
      = (fun c => Char.isWhitespace c) := funext fun c => toLower_isWhitespace c
  unfold stripList List.rdropWhile
  rw [List.dropWhile_map, hws, ← List.map_reverse, List.dropWhile_map, hws,
    List.map_reverse]

theorem map_toLower_idem (l : List Char) :
    (l.map Char.toLower).map Char.toLower = l.map Char.toLower := by
  rw [List.map_map]
  exact List.map_congr_left (fun c _ => toLower_idem c)

theorem pyNormalize_idem (s : String) :
    pyNormalize (pyNormalize s) = pyNormalize s := by
  show pyLower (pyStrip (pyLower (pyStrip s))) = pyLower (pyStrip s)
  simp only [pyLower, pyStrip]
  rw [stripList_map_toLower, stripList_idem, map_toLower_idem]

theorem pyNormalize_of_strip_empty {s : String} (h : pyStrip s = "") :
    pyNormalize s = "" := by
  have hl : stripList s.data = [] := congrArg String.data h
  show pyLower (pyStrip s) = ""
  rw [h]
  rfl

theorem rstripDots_no_trailing_dot (s : String) {c : Char}
    (h : (rstripDots s).data.getLast? = some c) : c ≠ '.' := by
  unfold rstripDots at h
  have hne : List.rdropWhile (fun c => c = '.') s.data ≠ [] := by
    intro he
    rw [show (String.mk (List.rdropWhile (fun c => c = '.') s.data)).data
        = List.rdropWhile (fun c => c = '.') s.data from rfl, he] at h
    simp at h
  rw [show (String.mk (List.rdropWhile (fun c => c = '.') s.data)).data
      = List.rdropWhile (fun c => c = '.') s.data from rfl,
    List.getLast?_eq_getLast _ hne] at h
  have hnot := List.rdropWhile_last_not (fun c => c = '.') s.data hne
  intro hc
  apply hnot
  simp only [Option.some.injEq] at h
  rw [h, hc]
  simp

/-! Domain Resolver (`src/modules/domain_lookup.py`)

A DNS oracle value describes what the runtime did when the code reached
`import dns.resolver` / `resolver.resolve(domain, "MX")`:
the import may fail (`importError`, dnspython absent), the query may
return a list of exchange rdata strings (`answers`, possibly with the
trailing root dot), or raise any non-ImportError exception (`raises`,
carrying the exception text).  A socket oracle likewise describes
`socket.getaddrinfo`: success, `socket.gaierror`, or any other
exception. -/

inductive DnsOutcome where
  | importError : DnsOutcome
  | answers (rdatas : List String) : DnsOutcome
  | raises (exc : String) : DnsOutcome
deriving DecidableEq, Repr

inductive SocketOutcome where
  | resolves : SocketOutcome
  | gaierror (exc : String) : SocketOutcome
  | raises (exc : String) : SocketOutcome
deriving DecidableEq, Repr

/-- Network calls, for instrumentation of `lookup_domain`. -/
inductive NetCall where
  | dnsMx : NetCall
  | socketResolve : NetCall
deriving DecidableEq, Repr

/-- Result dictionary of the domain lookup functions. -/
structure LookupResult where
  status : String
  message : String
  mx_records : List String
  method : String
deriving DecidableEq, Repr

/-- Embedding of `_resolve_with_dnspython`.  `none` models the
re-raised `ImportError` (the `except ImportError: raise` branch); every
other outcome is caught and converted to a result dictionary. -/
def resolve_with_dnspython (domain : String) (timeout : Nat)
    (dns : DnsOutcome) : Option LookupResult :=
  match dns with
  | .importError => none
  | .answers rdatas =>
      let mx_records := rdatas.map (fun h => rstripDots h)
      some { status := if mx_records.isEmpty then "invalid" else "ok",
             message := if mx_records.isEmpty then "No MX records found."
                        else "MX records found.",
             mx_records := mx_records,
             method := "dnspython" }
  | .raises exc =>
      some { status := "invalid",
             message := "MX lookup failed: " ++ exc,
             mx_records := [],
             method := "dnspython" }

/-- Embedding of `_resolve_with_socket`: never raises. -/
def resolve_with_socket (domain : String) (timeout : Nat)
    (sock : SocketOutcome) : LookupResult :=
  match sock with
  | .resolves =>
      { status := "ok", message := "Domain resolves via A/AAAA records.",
        mx_records := [], method := "socket" }
  | .gaierror exc =>
      { status := "invalid", message := "Domain does not resolve: " ++ exc,
        mx_records := [], method := "socket" }
  | .raises exc =>
      { status := "invalid", message := "Unexpected DNS error: " ++ exc,
        mx_records := [], method := "socket" }

/-- Embedding of `lookup_domain`.  The second component is the trace of
network calls performed (ghost instrumentation): a failed `import` makes
no network call, an MX query is one `dnsMx` call, the socket fallback is
one `socketResolve` call. -/
def lookup_domain (domain : String) (timeout : Nat)
    (dns : DnsOutcome) (sock : SocketOutcome) : LookupResult × List NetCall :=
  let d := pyNormalize domain
  if d = "" then
    ({ status := "invalid", message := "Domain name is empty.",
       mx_records := [], method := "none" }, [])
  else
    match resolve_with_dnspython d timeout dns with
    | some r => (r, [NetCall.dnsMx])
    | none => (resolve_with_socket d timeout sock, [NetCall.socketResolve])

/-! SMTP Prober (`src/modules/smtp_checker.py`)

A probe oracle maps each candidate host to what happened on the
`smtplib.SMTP(host, 25, timeout)` / `server.noop()` call: a numeric
reply `code` (with reply text), one of the three exception classes named
in the first `except` clause (`socket.timeout`,
`smtplib.SMTPServerDisconnected`, `smtplib.SMTPConnectError`), or any
other exception (`raises`). -/

inductive ProbeOutcome where
  | reply (code : Nat) (msg : String) : ProbeOutcome
  | timeout (exc : String) : ProbeOutcome
  | serverDisconnected (exc : String) : ProbeOutcome
  | connectError (exc : String) : ProbeOutcome
  | raises (exc : String) : ProbeOutcome
deriving DecidableEq, Repr

/-- Result dictionary of the SMTP probe functions. -/
structure ProbeResult where
  status : String
  message : String
deriving DecidableEq, Repr

/-- Embedding of `_get_mx_hosts_via_dnspython`: every failure
(ImportError included) is swallowed into an empty host list. -/
def get_mx_hosts_via_dnspython (domain : String) (timeout : Nat)
    (dns : DnsOutcome) : List String :=
  match dns with
  | .answers rdatas => rdatas.map (fun h => rstripDots h)
  | _ => []

/-- Embedding of `_guess_mx_host_from_domain`. -/
def guess_mx_host_from_domain (domain : String) : List String :=
  ["mail." ++ domain, "mx." ++ domain, domain]

/-- Embedding of `_probe_smtp_host`. -/
def probe_smtp_host (host : String) (timeout : Nat)
    (o : ProbeOutcome) : ProbeResult :=
  match o with
  | .reply code _ =>
      if 200 ≤ code ∧ code < 400 then
        { status := "ok",
          message := "SMTP server " ++ host ++ " responded with code "
            ++ toString code ++ "." }
      else
        { status := "unreachable",
          message := "SMTP server " ++ host ++ " responded with code "
            ++ toString code ++ "." }
  | .timeout _ =>
      { status := "unreachable",
        message := "SMTP server " ++ host ++ " is unreachable or disconnected." }
  | .serverDisconnected _ =>
      { status := "unreachable",
        message := "SMTP server " ++ host ++ " is unreachable or disconnected." }
  | .connectError _ =>
      { status := "unreachable",
        message := "SMTP server " ++ host ++ " is unreachable or disconnected." }
  | .raises exc =>
      { status := "unknown",
        message := "Unexpected SMTP error while connecting to " ++ host
          ++ ": " ++ exc }

/-- The test `result["status"] in ("ok", "unreachable")` from the loop
body of `check_smtp_server`. -/
def isConclusive (r : ProbeResult) : Bool :=
  r.status == "ok" || r.status == "unreachable"

/-- Candidate host list as built in the body of `check_smtp_server`:
MX-derived hosts, or the heuristic guesses when that list is empty. -/
def candidateHosts (d : String) (timeout : Nat) (dns : DnsOutcome) : List String :=
  let mxHosts := get_mx_hosts_via_dnspython d timeout dns
  if mxHosts.isEmpty then guess_mx_host_from_domain d else mxHosts

/-- The `for host in hosts` loop of `check_smtp_server`.  The second
component records the hosts that were actually probed, in order (ghost
instrumentation); `fallback` is the final all-unknown dictionary built
after the loop. -/
def probeLoop (hosts : List String) (timeout : Nat)
    (probe : String → ProbeOutcome) (fallback : ProbeResult) :
    ProbeResult × List String :=
  match hosts with
  | [] => (fallback, [])
  | h :: rest =>
      let r := probe_smtp_host h timeout (probe h)
      if isConclusive r then (r, [h])
      else
        let res := probeLoop rest timeout probe fallback
        (res.1, h :: res.2)

/-- Embedding of `check_smtp_server`.  The second component is the list
of hosts probed, in order (ghost instrumentation). -/
def check_smtp_server (domain : String) (timeout : Nat)
    (dns : DnsOutcome) (probe : String → ProbeOutcome) :
    ProbeResult × List String :=
  let d := pyNormalize domain
  if d = "" then
    ({ status := "unknown",
       message := "Domain is empty; cannot perform SMTP check." }, [])
  else
    probeLoop (candidateHosts d timeout dns) timeout probe
      { status := "unknown",
        message := "Unable to determine SMTP status for domain " ++ d ++ "." }

/-! Batch driver (`src/main.py`)

The validator itself (`modules/validator.py`) is an external
collaborator here; the driver's loop only needs its observable
behaviour per address: either a verdict dictionary or a raised
exception, modelled as `Except String Verdict` (the `String` being the
exception text). -/

/-- Verdict dictionary, one per input address. -/
structure Verdict where
  email : String
  email_status : String
  message : String
  format : String
  mailbox_status : String
  mailbox_type : String
  domain : String
deriving DecidableEq, Repr

/-- The fallback dictionary appended by `main`'s `except` branch. -/
def errorVerdict (email exc : String) : Verdict :=
  { email := email, email_status := "unknown",
    message := "Internal error during validation: " ++ exc,
    format := "unknown", mailbox_status := "unknown",
    mailbox_type := "unknown", domain := "" }

/-- Body of `main`'s `for idx, email in enumerate(emails)` loop for one
address: `try: results.append(validator.validate(email)) except ...`. -/
def processOne (validate : String → Except String Verdict)
    (email : String) : Verdict :=
  match validate email with
  | .ok r => r
  | .error exc => errorVerdict email exc

/-- The batch loop of `main`: every address contributes exactly one
verdict, in input order. -/
def processBatch (validate : String → Except String Verdict)
    (emails : List String) : List Verdict :=
  emails.map (processOne validate)

/-! Helper lemmas about the SMTP probe loop -/

theorem isConclusive_iff (r : ProbeResult) :
    isConclusive r = true ↔ r.status = "ok" ∨ r.status = "unreachable" := by
  simp [isConclusive]

theorem probe_status_cases (host : String) (timeout : Nat) (o : ProbeOutcome) :
    (probe_smtp_host host timeout o).status = "ok" ∨
    (probe_smtp_host host timeout o).status = "unreachable" ∨
    (probe_smtp_host host timeout o).status = "unknown" := by
  cases o with
  | reply code msg =>
      by_cases h : 200 ≤ code ∧ code < 400 <;>
        simp [probe_smtp_host, h]
  | timeout e => simp [probe_smtp_host]
  | serverDisconnected e => simp [probe_smtp_host]
  | connectError e => simp [probe_smtp_host]
  | raises e => simp [probe_smtp_host]

theorem probe_status_unknown_iff (host : String) (timeout : Nat) (o : ProbeOutcome) :
    (probe_smtp_host host timeout o).status = "unknown" ↔ ∃ e, o = .raises e := by
  cases o with
  | reply code msg =>
      by_cases h : 200 ≤ code ∧ code < 400 <;>
        simp [probe_smtp_host, h]
  | timeout e => simp [probe_smtp_host]
  | serverDisconnected e => simp [probe_smtp_host]
  | connectError e => simp [probe_smtp_host]
  | raises e => simp [probe_smtp_host]

/-- Closed form of the probe loop: it returns the probe result of the
first candidate whose result is conclusive, having probed exactly the
non-conclusive prefix plus that candidate; when no candidate is
conclusive it returns the fallback after probing every candidate. -/
theorem probeLoop_eq (hosts : List String) (timeout : Nat)
    (probe : String → ProbeOutcome) (fallback : ProbeResult) :
    probeLoop hosts timeout probe fallback =
      match hosts.find?
          (fun h => isConclusive (probe_smtp_host h timeout (probe h))) with
      | some h =>
          (probe_smtp_host h timeout (probe h),
           hosts.takeWhile
             (fun h => !isConclusive (probe_smtp_host h timeout (probe h)))
             ++ [h])
      | none => (fallback, hosts) := by
  induction hosts with
  | nil => rfl
  | cons a rest ih =>
      by_cases h : isConclusive (probe_smtp_host a timeout (probe a)) = true
      · simp [probeLoop, List.find?_cons, List.takeWhile_cons, h]
      · simp only [probeLoop, h, if_neg, Bool.not_eq_true, ih]
        simp only [List.find?_cons, List.takeWhile_cons, h, if_false,
          Bool.not_eq_true', Bool.not_true, Bool.not_false]
        cases hf : rest.find?
            (fun h => isConclusive (probe_smtp_host h timeout (probe h))) with
        | none => simp [hf]
        | some b => simp [hf]

/-! Claim theorems -/

/-- C1: for every host probed by the SMTP prober, the probe result is
classified as follows: a reply code in 2xx–3xx yields `status = ok`;
any other reply code, as well as a timeout, a server disconnect, or a
connect error, yields `status = unreachable`; any other exception
yields `status = unknown`. -/
theorem c1_probe_classification (host : String) (timeout : Nat)
    (o : ProbeOutcome) :
    ((probe_smtp_host host timeout o).status = "ok" ↔
      ∃ code msg, o = .reply code msg ∧ 200 ≤ code ∧ code ≤ 399) ∧
    ((probe_smtp_host host timeout o).status = "unreachable" ↔
      ((∃ code msg, o = .reply code msg ∧ (code < 200 ∨ 400 ≤ code)) ∨
       (∃ e, o = .timeout e) ∨ (∃ e, o = .serverDisconnected e) ∨
       (∃ e, o = .connectError e))) ∧
    ((probe_smtp_host host timeout o).status = "unknown" ↔
      ∃ e, o = .raises e) := by
  cases o with
  | reply code msg =>
      by_cases h : 200 ≤ code ∧ code < 400 <;>
        simp [probe_smtp_host, h] <;> omega
  | timeout e => simp [probe_smtp_host]
  | serverDisconnected e => simp [probe_smtp_host]
  | connectError e => simp [probe_smtp_host]
  | raises e => simp [probe_smtp_host]

/-- C10: the SMTP prober normalizes its input exactly as the resolver
does — probing a raw domain string gives the same result (and the same
probed-host trace) as probing the trimmed and lower-cased domain, under
the same network oracles. -/
theorem c10_check_smtp_normalizes (domain : String) (timeout : Nat)
    (dns : DnsOutcome) (probe : String → ProbeOutcome) :
    check_smtp_server domain timeout dns probe =
      check_smtp_server (pyNormalize domain) timeout dns probe := by
  unfold check_smtp_server
  rw [pyNormalize_idem]

/-- Hosts probed by the loop always form an initial segment of the
candidate list. -/
theorem probeLoop_probed_take (hosts : List String) (timeout : Nat)
    (probe : String → ProbeOutcome) (fallback : ProbeResult) :
    (probeLoop hosts timeout probe fallback).2 =
      hosts.take (probeLoop hosts timeout probe fallback).2.length := by
  induction hosts with
  | nil => rfl
  | cons a rest ih =>
      by_cases h : isConclusive (probe_smtp_host a timeout (probe a)) = true
      · simp [probeLoop, h]
      · simp only [probeLoop, h, if_neg, Bool.not_eq_true]
        simp only [List.length_cons, List.take_succ_cons]
        rw [← ih]

/-- C2: for every non-empty (normalized) domain, `check_smtp_server`
returns the probe result of the first candidate host whose status is
`ok` or `unreachable`, probing exactly the candidates up to and
including that one; when no candidate is conclusive it returns
`status = unknown` with the domain-level message after probing every
candidate; and the returned status is always one of `ok`,
`unreachable`, `unknown` (no exception escapes). -/
theorem c2_first_conclusive (domain : String) (timeout : Nat)
    (dns : DnsOutcome) (probe : String → ProbeOutcome)
    (hne : pyNormalize domain ≠ "") :
    (check_smtp_server domain timeout dns probe =
      match (candidateHosts (pyNormalize domain) timeout dns).find?
          (fun h => isConclusive (probe_smtp_host h timeout (probe h))) with
      | some h =>
          (probe_smtp_host h timeout (probe h),
           (candidateHosts (pyNormalize domain) timeout dns).takeWhile
             (fun h => !isConclusive (probe_smtp_host h timeout (probe h)))
             ++ [h])
      | none =>
          ({ status := "unknown",
             message := "Unable to determine SMTP status for domain "
               ++ pyNormalize domain ++ "." },
           candidateHosts (pyNormalize domain) timeout dns)) ∧
    ((check_smtp_server domain timeout dns probe).1.status = "ok" ∨
     (check_smtp_server domain timeout dns probe).1.status = "unreachable" ∨
     (check_smtp_server domain timeout dns probe).1.status = "unknown") := by
  have hcheck : check_smtp_server domain timeout dns probe =
      probeLoop (candidateHosts (pyNormalize domain) timeout dns) timeout probe
        { status := "unknown",
          message := "Unable to determine SMTP status for domain "
            ++ pyNormalize domain ++ "." } := by
    unfold check_smtp_server
    rw [if_neg hne]
  constructor
  · rw [hcheck, probeLoop_eq]
  · rw [hcheck, probeLoop_eq]
    cases hf : (candidateHosts (pyNormalize domain) timeout dns).find?
        (fun h => isConclusive (probe_smtp_host h timeout (probe h))) with
    | none => simp
    | some h =>
        simpa using probe_status_cases h timeout (probe h)

/-- C5: when the normalized domain is non-empty and the MX-derived host
list is empty (failures being swallowed into an empty list), the
candidate hosts are exactly `mail.<domain>`, `mx.<domain>`, `<domain>`
in that order, and the hosts actually probed are an initial segment of
that list. -/
theorem c5_heuristic_candidates (domain : String) (timeout : Nat)
    (dns : DnsOutcome) (probe : String → ProbeOutcome)
    (hne : pyNormalize domain ≠ "")
    (hmx : get_mx_hosts_via_dnspython (pyNormalize domain) timeout dns = []) :
    candidateHosts (pyNormalize domain) timeout dns =
      ["mail." ++ pyNormalize domain, "mx." ++ pyNormalize domain,
       pyNormalize domain] ∧
    (check_smtp_server domain timeout dns probe).2 =
      (["mail." ++ pyNormalize domain, "mx." ++ pyNormalize domain,
        pyNormalize domain]).take
        (check_smtp_server domain timeout dns probe).2.length ∧
    (get_mx_hosts_via_dnspython (pyNormalize domain) timeout
        DnsOutcome.importError = [] ∧
     ∀ e, get_mx_hosts_via_dnspython (pyNormalize domain) timeout
        (DnsOutcome.raises e) = []) := by
  have hc : candidateHosts (pyNormalize domain) timeout dns =
      ["mail." ++ pyNormalize domain, "mx." ++ pyNormalize domain,
       pyNormalize domain] := by
    unfold candidateHosts
    rw [hmx]
    rfl
  refine ⟨hc, ?_, rfl, fun e => rfl⟩
  have hcheck : check_smtp_server domain timeout dns probe =
      probeLoop (candidateHosts (pyNormalize domain) timeout dns) timeout probe
        { status := "unknown",
          message := "Unable to determine SMTP status for domain "
            ++ pyNormalize domain ++ "." } := by
    unfold check_smtp_server
    rw [if_neg hne]
  rw [hcheck, ← hc]
  exact probeLoop_probed_take _ _ _ _

/-- C8: the overall SMTP probe status is `unknown` only when the
normalized domain was empty (no candidate hosts existed) or every
candidate host's probe raised an unclassified exception. -/
theorem c8_unknown_invariant (domain : String) (timeout : Nat)
    (dns : DnsOutcome) (probe : String → ProbeOutcome)
    (hunk : (check_smtp_server domain timeout dns probe).1.status = "unknown") :
    pyNormalize domain = "" ∨
      ∀ h ∈ candidateHosts (pyNormalize domain) timeout dns,
        ∃ e, probe h = ProbeOutcome.raises e := by
  by_cases hd : pyNormalize domain = ""
  · exact Or.inl hd
  · refine Or.inr ?_
    have hcheck : check_smtp_server domain timeout dns probe =
        probeLoop (candidateHosts (pyNormalize domain) timeout dns) timeout probe
          { status := "unknown",
            message := "Unable to determine SMTP status for domain "
              ++ pyNormalize domain ++ "." } := by
      unfold check_smtp_server
      rw [if_neg hd]
    rw [hcheck, probeLoop_eq] at hunk
    cases hf : (candidateHosts (pyNormalize domain) timeout dns).find?
        (fun h => isConclusive (probe_smtp_host h timeout (probe h))) with
    | some h =>
        rw [hf] at hunk
        simp only at hunk
        have hcon := List.find?_some hf
        rw [isConclusive_iff] at hcon
        rcases hcon with hok | hun
        · rw [hunk] at hok
          exact absurd hok (by decide)
        · rw [hunk] at hun
          exact absurd hun (by decide)
    | none =>
        intro h hmem
        have hall := List.find?_eq_none.mp hf h hmem
        rw [← probe_status_unknown_iff h timeout (probe h)]
        rcases probe_status_cases h timeout (probe h) with hs | hs | hs
        · exact absurd ((isConclusive_iff _).mpr (Or.inl hs)) (by simpa using hall)
        · exact absurd ((isConclusive_iff _).mpr (Or.inr hs)) (by simpa using hall)
        · exact hs

/-- C3: on the MX-record path of `lookup_domain`, a successful query
with at least one exchange host yields `status = ok` with a non-empty
MX-host list whose hosts carry no trailing dot; a successful query with
zero hosts yields `status = invalid` with message
"No MX records found."; and a non-ImportError resolution error yields
`status = invalid` carrying the error text, `method = dnspython`,
returned as-is with a single DNS call and no socket fallback. -/
theorem c3_dnspython_path (domain : String) (timeout : Nat)
    (sock : SocketOutcome) (hne : pyNormalize domain ≠ "") :
    (∀ rdatas, rdatas ≠ [] →
      (lookup_domain domain timeout (DnsOutcome.answers rdatas) sock).1 =
        { status := "ok", message := "MX records found.",
          mx_records := rdatas.map (fun h => rstripDots h),
          method := "dnspython" } ∧
      rdatas.map (fun h => rstripDots h) ≠ [] ∧
      (∀ hst ∈ rdatas.map (fun h => rstripDots h),
        ∀ c, hst.data.getLast? = some c → c ≠ '.')) ∧
    ((lookup_domain domain timeout (DnsOutcome.answers []) sock).1 =
      { status := "invalid", message := "No MX records found.",
        mx_records := [], method := "dnspython" }) ∧
    (∀ exc,
      lookup_domain domain timeout (DnsOutcome.raises exc) sock =
        ({ status := "invalid", message := "MX lookup failed: " ++ exc,
           mx_records := [], method := "dnspython" }, [NetCall.dnsMx])) := by
  refine ⟨?_, ?_, ?_⟩
  · intro rdatas hrd
    have hmap : rdatas.map (fun h => rstripDots h) ≠ [] := by
      simpa using hrd
    refine ⟨?_, hmap, ?_⟩
    · unfold lookup_domain
      rw [if_neg hne]
      simp only [resolve_with_dnspython]
      rw [if_neg (by simpa using hmap), if_neg (by simpa using hmap)]
    · intro hst hmem c hlast
      rcases List.mem_map.mp hmem with ⟨raw, _, hraw⟩
      rw [← hraw] at hlast
      exact rstripDots_no_trailing_dot raw hlast
  · unfold lookup_domain
    rw [if_neg hne]
    rfl
  · intro exc
    unfold lookup_domain
    rw [if_neg hne]
    rfl

/-- C4: when the MX capability is absent (`ImportError`),
`lookup_domain` falls back to socket address resolution: a resolvable
domain yields `status = ok` with empty MX list and `method = socket`; a
name-resolution failure yields `status = invalid` with the failure
detail; any other error also maps to `status = invalid` under
`method = socket`; and the result status is always `ok` or `invalid`
(no exception propagates on this path). -/
theorem c4_socket_fallback (domain : String) (timeout : Nat)
    (sock : SocketOutcome) (hne : pyNormalize domain ≠ "") :
    (lookup_domain domain timeout DnsOutcome.importError sock =
      (resolve_with_socket (pyNormalize domain) timeout sock,
       [NetCall.socketResolve])) ∧
    (sock = SocketOutcome.resolves →
      (lookup_domain domain timeout DnsOutcome.importError sock).1 =
        { status := "ok", message := "Domain resolves via A/AAAA records.",
          mx_records := [], method := "socket" }) ∧
    (∀ exc, sock = SocketOutcome.gaierror exc →
      (lookup_domain domain timeout DnsOutcome.importError sock).1 =
        { status := "invalid", message := "Domain does not resolve: " ++ exc,
          mx_records := [], method := "socket" }) ∧
    (∀ exc, sock = SocketOutcome.raises exc →
      (lookup_domain domain timeout DnsOutcome.importError sock).1 =
        { status := "invalid", message := "Unexpected DNS error: " ++ exc,
          mx_records := [], method := "socket" }) ∧
    ((lookup_domain domain timeout DnsOutcome.importError sock).1.status = "ok" ∨
     (lookup_domain domain timeout DnsOutcome.importError sock).1.status
       = "invalid") := by
  have hbase : lookup_domain domain timeout DnsOutcome.importError sock =
      (resolve_with_socket (pyNormalize domain) timeout sock,
       [NetCall.socketResolve]) := by
    unfold lookup_domain
    rw [if_neg hne]
    rfl
  refine ⟨hbase, ?_, ?_, ?_, ?_⟩
  · intro hs; rw [hbase, hs]; rfl
  · intro exc hs; rw [hbase, hs]; rfl
  · intro exc hs; rw [hbase, hs]; rfl
  · rw [hbase]
    cases sock with
    | resolves => exact Or.inl rfl
    | gaierror e => exact Or.inr rfl
    | raises e => exact Or.inr rfl

/-- C7: data-model invariant of every Domain Lookup Result:
`method = none` only when the normalized input domain is empty, and the
MX-host list is non-empty only when `method = dnspython`, the status is
`ok` and the DNS query actually returned records. -/
theorem c7_lookup_invariant (domain : String) (timeout : Nat)
    (dns : DnsOutcome) (sock : SocketOutcome) :
    ((lookup_domain domain timeout dns sock).1.method = "none" →
      pyNormalize domain = "") ∧
    ((lookup_domain domain timeout dns sock).1.mx_records ≠ [] →
      (lookup_domain domain timeout dns sock).1.method = "dnspython" ∧
      (lookup_domain domain timeout dns sock).1.status = "ok" ∧
      ∃ rdatas, dns = DnsOutcome.answers rdatas ∧ rdatas ≠ []) := by
  by_cases hd : pyNormalize domain = ""
  · have hbase : lookup_domain domain timeout dns sock =
        ({ status := "invalid", message := "Domain name is empty.",
           mx_records := [], method := "none" }, []) := by
      unfold lookup_domain
      rw [if_pos hd]
    rw [hbase]
    exact ⟨fun _ => hd, fun hmx => absurd rfl hmx⟩
  · constructor
    · intro hm
      exfalso
      cases dns with
      | importError =>
          have hbase : lookup_domain domain timeout DnsOutcome.importError sock =
              (resolve_with_socket (pyNormalize domain) timeout sock,
               [NetCall.socketResolve]) := by
            unfold lookup_domain
            rw [if_neg hd]
            rfl
          rw [hbase] at hm
          cases sock <;> simp [resolve_with_socket] at hm
      | answers rdatas =>
          have hbase : (lookup_domain domain timeout
              (DnsOutcome.answers rdatas) sock).1.method = "dnspython" := by
            unfold lookup_domain
            rw [if_neg hd]
            rfl
          rw [hbase] at hm
          exact absurd hm (by decide)
      | raises exc =>
          have hbase : (lookup_domain domain timeout
              (DnsOutcome.raises exc) sock).1.method = "dnspython" := by
            unfold lookup_domain
            rw [if_neg hd]
            rfl
          rw [hbase] at hm
          exact absurd hm (by decide)
    · intro hmx
      cases dns with
      | importError =>
          exfalso
          have hbase : lookup_domain domain timeout DnsOutcome.importError sock =
              (resolve_with_socket (pyNormalize domain) timeout sock,
               [NetCall.socketResolve]) := by
            unfold lookup_domain
            rw [if_neg hd]
            rfl
          rw [hbase] at hmx
          cases sock <;> exact hmx rfl
      | answers rdatas =>
          have hrd : rdatas ≠ [] := by
            intro he
            apply hmx
            subst he
            unfold lookup_domain
            rw [if_neg hd]
            rfl
          have hmap : (rdatas.map (fun h => rstripDots h)).isEmpty = false := by
            simp [List.isEmpty_iff, hrd]
          have hbase : lookup_domain domain timeout
              (DnsOutcome.answers rdatas) sock =
              ({ status := "ok", message := "MX records found.",
                 mx_records := rdatas.map (fun h => rstripDots h),
                 method := "dnspython" }, [NetCall.dnsMx]) := by
            unfold lookup_domain
            rw [if_neg hd]
            simp only [resolve_with_dnspython, hmap]
            rfl
          rw [hbase]
          exact ⟨rfl, rfl, rdatas, rfl, hrd⟩
      | raises exc =>
          exfalso
          have hbase : lookup_domain domain timeout
              (DnsOutcome.raises exc) sock =
              ({ status := "invalid", message := "MX lookup failed: " ++ exc,
                 mx_records := [], method := "dnspython" }, [NetCall.dnsMx]) := by
            unfold lookup_domain
            rw [if_neg hd]
            rfl
          rw [hbase] at hmx
          exact hmx rfl

/-- C9: for every input domain whose whitespace-trimmed form is empty,
`lookup_domain` returns `status = invalid`, `method = none` and an
empty MX-host list, performing no network call at all (empty trace),
regardless of the state of the DNS and socket subsystems. -/
theorem c9_empty_domain (domain : String) (timeout : Nat)
    (dns : DnsOutcome) (sock : SocketOutcome) (h : pyStrip domain = "") :
    lookup_domain domain timeout dns sock =
      ({ status := "invalid", message := "Domain name is empty.",
         mx_records := [], method := "none" }, []) := by
  unfold lookup_domain
  rw [if_pos (pyNormalize_of_strip_empty h)]

/-- C6: for every address in a batch, an exception raised while
validating that address is caught by the driver and converted into a
verdict with `email_status = unknown`, `format = unknown`,
`mailbox_status = unknown` carrying the error text, while every
position of the batch (including all other addresses) still receives
exactly the verdict of processing that address alone — the batch is
never aborted. -/
theorem c6_batch_error_isolation (validate : String → Except String Verdict)
    (emails : List String) (i : Nat) (email exc : String)
    (hmem : emails[i]? = some email)
    (hraise : validate email = Except.error exc) :
    (processBatch validate emails).length = emails.length ∧
    (processBatch validate emails)[i]? = some (errorVerdict email exc) ∧
    (∀ j : Nat, (processBatch validate emails)[j]? =
      (emails[j]?).map (processOne validate)) := by
  refine ⟨by simp [processBatch], ?_, fun j => by simp [processBatch]⟩
  rw [processBatch, List.getElem?_map, hmem]
  simp [processOne, hraise]

/-! Concrete witness fixtures -/

/-- Probe oracle for witnesses: the first heuristic host raises an
unclassified error, every other host answers the NOOP with code 250. -/
def probeW : String → ProbeOutcome := fun h =>
  if h = "mail.example.com" then ProbeOutcome.raises "boom"
  else ProbeOutcome.reply 250 "OK"

/-- Validator oracle for the batch witness: raises on one address,
returns a fixed verdict on the others. -/
def validateW : String → Except String Verdict := fun e =>
  if e = "bad@x" then Except.error "boom"
  else Except.ok { email := e, email_status := "valid", message := "ok",
                   format := "valid", mailbox_status := "ok",
                   mailbox_type := "unknown", domain := "b.com" }

/-- Witness for C2 at a concrete input: heuristic candidates, the first
probe raises, the second replies 250 and is conclusive. -/
theorem c2_first_conclusive_witness :
    pyNormalize "Example.COM " ≠ "" ∧
    ((check_smtp_server "Example.COM " 8 DnsOutcome.importError probeW =
      match (candidateHosts (pyNormalize "Example.COM ") 8
          DnsOutcome.importError).find?
          (fun h => isConclusive (probe_smtp_host h 8 (probeW h))) with
      | some h =>
          (probe_smtp_host h 8 (probeW h),
           (candidateHosts (pyNormalize "Example.COM ") 8
             DnsOutcome.importError).takeWhile
             (fun h => !isConclusive (probe_smtp_host h 8 (probeW h)))
             ++ [h])
      | none =>
          ({ status := "unknown",
             message := "Unable to determine SMTP status for domain "
               ++ pyNormalize "Example.COM " ++ "." },
           candidateHosts (pyNormalize "Example.COM ") 8
             DnsOutcome.importError)) ∧
    ((check_smtp_server "Example.COM " 8 DnsOutcome.importError probeW).1.status
        = "ok" ∨
     (check_smtp_server "Example.COM " 8 DnsOutcome.importError probeW).1.status
        = "unreachable" ∨
     (check_smtp_server "Example.COM " 8 DnsOutcome.importError probeW).1.status
        = "unknown")) :=
  ⟨by decide,
   c2_first_conclusive "Example.COM " 8 DnsOutcome.importError probeW (by decide)⟩

/-- Witness for C5 at the same concrete input. -/
theorem c5_heuristic_candidates_witness :
    pyNormalize "Example.COM " ≠ "" ∧
    get_mx_hosts_via_dnspython (pyNormalize "Example.COM ") 8
      DnsOutcome.importError = [] ∧
    (candidateHosts (pyNormalize "Example.COM ") 8 DnsOutcome.importError =
      ["mail." ++ pyNormalize "Example.COM ", "mx." ++ pyNormalize "Example.COM ",
       pyNormalize "Example.COM "] ∧
    (check_smtp_server "Example.COM " 8 DnsOutcome.importError probeW).2 =
      (["mail." ++ pyNormalize "Example.COM ", "mx." ++ pyNormalize "Example.COM ",
        pyNormalize "Example.COM "]).take
        (check_smtp_server "Example.COM " 8 DnsOutcome.importError probeW).2.length ∧
    (get_mx_hosts_via_dnspython (pyNormalize "Example.COM ") 8
        DnsOutcome.importError = [] ∧
     ∀ e, get_mx_hosts_via_dnspython (pyNormalize "Example.COM ") 8
        (DnsOutcome.raises e) = [])) :=
  ⟨by decide, by decide,
   c5_heuristic_candidates "Example.COM " 8 DnsOutcome.importError probeW
     (by decide) (by decide)⟩

/-- Witness for C8 at a concrete input (the empty domain, whose probe
status is `unknown`). -/
theorem c8_unknown_invariant_witness :
    (check_smtp_server "" 8 DnsOutcome.importError probeW).1.status = "unknown" ∧
    (pyNormalize "" = "" ∨
      ∀ h ∈ candidateHosts (pyNormalize "") 8 DnsOutcome.importError,
        ∃ e, probeW h = ProbeOutcome.raises e) :=
  ⟨by decide, c8_unknown_invariant "" 8 DnsOutcome.importError probeW (by decide)⟩

/-- Witness for C3 at a concrete input. -/
theorem c3_dnspython_path_witness :
    pyNormalize "Example.com" ≠ "" ∧
    ((∀ rdatas, rdatas ≠ [] →
      (lookup_domain "Example.com" 5 (DnsOutcome.answers rdatas)
          SocketOutcome.resolves).1 =
        { status := "ok", message := "MX records found.",
          mx_records := rdatas.map (fun h => rstripDots h),
          method := "dnspython" } ∧
      rdatas.map (fun h => rstripDots h) ≠ [] ∧
      (∀ hst ∈ rdatas.map (fun h => rstripDots h),
        ∀ c, hst.data.getLast? = some c → c ≠ '.')) ∧
    ((lookup_domain "Example.com" 5 (DnsOutcome.answers [])
        SocketOutcome.resolves).1 =
      { status := "invalid", message := "No MX records found.",
        mx_records := [], method := "dnspython" }) ∧
    (∀ exc,
      lookup_domain "Example.com" 5 (DnsOutcome.raises exc)
          SocketOutcome.resolves =
        ({ status := "invalid", message := "MX lookup failed: " ++ exc,
           mx_records := [], method := "dnspython" }, [NetCall.dnsMx]))) :=
  ⟨by decide, c3_dnspython_path "Example.com" 5 SocketOutcome.resolves (by decide)⟩

/-- Witness for C4 at a concrete input (resolution failure). -/
theorem c4_socket_fallback_witness :
    pyNormalize "example.com" ≠ "" ∧
    ((lookup_domain "example.com" 5 DnsOutcome.importError
        (SocketOutcome.gaierror "Name or service not known") =
      (resolve_with_socket (pyNormalize "example.com") 5
        (SocketOutcome.gaierror "Name or service not known"),
       [NetCall.socketResolve])) ∧
    ((SocketOutcome.gaierror "Name or service not known")
        = SocketOutcome.resolves →
      (lookup_domain "example.com" 5 DnsOutcome.importError
          (SocketOutcome.gaierror "Name or service not known")).1 =
        { status := "ok", message := "Domain resolves via A/AAAA records.",
          mx_records := [], method := "socket" }) ∧
    (∀ exc, (SocketOutcome.gaierror "Name or service not known")
        = SocketOutcome.gaierror exc →
      (lookup_domain "example.com" 5 DnsOutcome.importError
          (SocketOutcome.gaierror "Name or service not known")).1 =
        { status := "invalid", message := "Domain does not resolve: " ++ exc,
          mx_records := [], method := "socket" }) ∧
    (∀ exc, (SocketOutcome.gaierror "Name or service not known")
        = SocketOutcome.raises exc →
      (lookup_domain "example.com" 5 DnsOutcome.importError
          (SocketOutcome.gaierror "Name or service not known")).1 =
        { status := "invalid", message := "Unexpected DNS error: " ++ exc,
          mx_records := [], method := "socket" }) ∧
    ((lookup_domain "example.com" 5 DnsOutcome.importError
        (SocketOutcome.gaierror "Name or service not known")).1.status = "ok" ∨
     (lookup_domain "example.com" 5 DnsOutcome.importError
        (SocketOutcome.gaierror "Name or service not known")).1.status
       = "invalid")) :=
  ⟨by decide,
   c4_socket_fallback "example.com" 5
     (SocketOutcome.gaierror "Name or service not known") (by decide)⟩

/-- Witness for C9 at a concrete input (whitespace-only domain). -/
theorem c9_empty_domain_witness :
    pyStrip "   " = "" ∧
    lookup_domain "   " 5 DnsOutcome.importError SocketOutcome.resolves =
      ({ status := "invalid", message := "Domain name is empty.",
         mx_records := [], method := "none" }, []) :=
  ⟨by decide,
   c9_empty_domain "   " 5 DnsOutcome.importError SocketOutcome.resolves
     (by decide)⟩

/-- Witness for C6 at a concrete batch whose second address raises. -/
theorem c6_batch_error_isolation_witness :
    (["a@b.com", "bad@x", "c@d.com"] : List String)[1]? = some "bad@x" ∧
    validateW "bad@x" = Except.error "boom" ∧
    ((processBatch validateW ["a@b.com", "bad@x", "c@d.com"]).length =
      (["a@b.com", "bad@x", "c@d.com"] : List String).length ∧
    (processBatch validateW ["a@b.com", "bad@x", "c@d.com"])[1]? =
      some (errorVerdict "bad@x" "boom") ∧
    (∀ j : Nat, (processBatch validateW ["a@b.com", "bad@x", "c@d.com"])[j]? =
      ((["a@b.com", "bad@x", "c@d.com"] : List String)[j]?).map
        (processOne validateW))) :=
  ⟨by decide, by rfl,
   c6_batch_error_isolation validateW ["a@b.com", "bad@x", "c@d.com"] 1
     "bad@x" "boom" (by decide) (by rfl)⟩

end BulkEmails
